import Mathlib

/-!
Verification of the IndraCast (WeatherSync) ensemble weather aggregation core.

The JavaScript source (`config.js` and the main `WeatherApp` class) is shallowly
embedded below.  Numeric values are modelled with `ℚ` (exact arithmetic as the
ideal semantics of the source's arithmetic); raw provider payloads are modelled
as structurally well-formed records, so field accesses that the source performs
unconditionally are total here.  JavaScript's `x || 0` on a numeric field that
is always present is the identity on the modelled value (the only falsy number
is 0, and `0 || 0 = 0`); where the source guards a possibly-absent field with
`|| 0` the field is modelled as an `Option` and the guard as `Option.getD 0`.
-/

/-- JavaScript `Math.round`: rounds half-way cases toward positive infinity
(`Math.round (-0.5) = -0`), i.e. `⌊x + 1/2⌋`. -/
def jsMathRound (x : ℚ) : ℤ := ⌊x + 1 / 2⌋

/-- The source's one-decimal rounding idiom `Math.round (x * 10) / 10`. -/
def roundTo1 (x : ℚ) : ℚ := (jsMathRound (x * 10) : ℚ) / 10

/-- Modelled from the spec: rounding to an integer with ties going away from
zero, the rounding the spec prescribes for consensus fields. -/
def awayRound (x : ℚ) : ℤ := if 0 ≤ x then ⌊x + 1 / 2⌋ else -⌊-x + 1 / 2⌋

/-- Modelled from the spec: round-half-away-from-zero to one decimal place. -/
def roundHalfAwayTo1 (x : ℚ) : ℚ := (awayRound (x * 10) : ℚ) / 10

/-- A normalized per-provider observation, the common shape produced by
`normalizeOpenWeatherMapData`, `normalizeWeatherbitData` and
`normalizeOpenMeteoData`. -/
structure NormalizedWeather where
  source : String
  temperature : ℚ
  feelsLike : ℚ
  humidity : ℚ
  pressure : ℚ
  windSpeed : ℚ
  windDirection : ℚ
  visibility : ℚ
  uvIndex : ℚ
  cloudCover : ℚ
  precipitationChance : ℚ
  description : String
  icon : String
  timestamp : ℚ
deriving Repr, DecidableEq

/-- The object built by `createEnsembleWeather` for two or more sources.  Note
that it carries a `sources` list (and no `timestamp`), unlike a single
`NormalizedWeather`, which carries a `source` string. -/
structure EnsembleWeather where
  temperature : ℚ
  feelsLike : ℚ
  humidity : ℚ
  pressure : ℚ
  windSpeed : ℚ
  windDirection : ℚ
  visibility : ℚ
  uvIndex : ℚ
  cloudCover : ℚ
  precipitationChance : ℚ
  description : String
  icon : String
  sources : List String
deriving Repr, DecidableEq

/-- One entry of `CONFIG.WEATHER_CONDITIONS`. -/
structure WeatherCondition where
  icon : String
  description : String
deriving Repr, DecidableEq

/-- `CONFIG.WEATHER_CONDITIONS` from `config.js`: OpenWeatherMap condition code to icon/description pair. -/
def weatherConditions : Int → Option WeatherCondition
  | 200 => some ⟨"⛈️", "Thunderstorm with light rain"⟩
  | 201 => some ⟨"⛈️", "Thunderstorm with rain"⟩
  | 202 => some ⟨"⛈️", "Thunderstorm with heavy rain"⟩
  | 210 => some ⟨"🌩️", "Light thunderstorm"⟩
  | 211 => some ⟨"⛈️", "Thunderstorm"⟩
  | 212 => some ⟨"⛈️", "Heavy thunderstorm"⟩
  | 221 => some ⟨"⛈️", "Ragged thunderstorm"⟩
  | 230 => some ⟨"⛈️", "Thunderstorm with light drizzle"⟩
  | 231 => some ⟨"⛈️", "Thunderstorm with drizzle"⟩
  | 232 => some ⟨"⛈️", "Thunderstorm with heavy drizzle"⟩
  | 300 => some ⟨"🌦️", "Light intensity drizzle"⟩
  | 301 => some ⟨"🌦️", "Drizzle"⟩
  | 302 => some ⟨"🌦️", "Heavy intensity drizzle"⟩
  | 310 => some ⟨"🌦️", "Light intensity drizzle rain"⟩
  | 311 => some ⟨"🌦️", "Drizzle rain"⟩
  | 312 => some ⟨"🌦️", "Heavy intensity drizzle rain"⟩
  | 313 => some ⟨"🌦️", "Shower rain and drizzle"⟩
  | 314 => some ⟨"🌦️", "Heavy shower rain and drizzle"⟩
  | 321 => some ⟨"🌦️", "Shower drizzle"⟩
  | 500 => some ⟨"🌧️", "Light rain"⟩
  | 501 => some ⟨"🌧️", "Moderate rain"⟩
  | 502 => some ⟨"🌧️", "Heavy intensity rain"⟩
  | 503 => some ⟨"🌧️", "Very heavy rain"⟩
  | 504 => some ⟨"🌧️", "Extreme rain"⟩
  | 511 => some ⟨"🌨️", "Freezing rain"⟩
  | 520 => some ⟨"🌦️", "Light intensity shower rain"⟩
  | 521 => some ⟨"🌦️", "Shower rain"⟩
  | 522 => some ⟨"🌦️", "Heavy intensity shower rain"⟩
  | 531 => some ⟨"🌦️", "Ragged shower rain"⟩
  | 600 => some ⟨"🌨️", "Light snow"⟩
  | 601 => some ⟨"🌨️", "Snow"⟩
  | 602 => some ⟨"❄️", "Heavy snow"⟩
  | 611 => some ⟨"🌨️", "Sleet"⟩
  | 612 => some ⟨"🌨️", "Light shower sleet"⟩
  | 613 => some ⟨"🌨️", "Shower sleet"⟩
  | 615 => some ⟨"🌨️", "Light rain and snow"⟩
  | 616 => some ⟨"🌨️", "Rain and snow"⟩
  | 620 => some ⟨"🌨️", "Light shower snow"⟩
  | 621 => some ⟨"🌨️", "Shower snow"⟩
  | 622 => some ⟨"❄️", "Heavy shower snow"⟩
  | 701 => some ⟨"🌫️", "Mist"⟩
  | 711 => some ⟨"💨", "Smoke"⟩
  | 721 => some ⟨"🌫️", "Haze"⟩
  | 731 => some ⟨"💨", "Sand/dust whirls"⟩
  | 741 => some ⟨"🌫️", "Fog"⟩
  | 751 => some ⟨"💨", "Sand"⟩
  | 761 => some ⟨"💨", "Dust"⟩
  | 762 => some ⟨"🌋", "Volcanic ash"⟩
  | 771 => some ⟨"💨", "Squalls"⟩
  | 781 => some ⟨"🌪️", "Tornado"⟩
  | 800 => some ⟨"☀️", "Clear sky"⟩
  | 801 => some ⟨"🌤️", "Few clouds"⟩
  | 802 => some ⟨"⛅", "Scattered clouds"⟩
  | 803 => some ⟨"🌥️", "Broken clouds"⟩
  | 804 => some ⟨"☁️", "Overcast clouds"⟩
  | _ => none

/-- `getWeatherIcon`: `CONFIG.WEATHER_CONDITIONS[code]?.icon || …` with the source's
default icon (the icon strings in the table are never empty, so the `||` falsy
guard is `Option.getD`). -/
def getWeatherIcon (code : Int) : String :=
  ((weatherConditions code).map WeatherCondition.icon).getD "‚õÖ"

/-- `getOpenMeteoDescription`: WMO weather code to description, default "Unknown". -/
def getOpenMeteoDescription : Int → String
  | 0 => "Clear sky"
  | 1 => "Mainly clear"
  | 2 => "Partly cloudy"
  | 3 => "Overcast"
  | 45 => "Fog"
  | 48 => "Depositing rime fog"
  | 51 => "Light drizzle"
  | 53 => "Moderate drizzle"
  | 55 => "Dense drizzle"
  | 61 => "Light rain"
  | 63 => "Moderate rain"
  | 65 => "Heavy rain"
  | 71 => "Light snow"
  | 73 => "Moderate snow"
  | 75 => "Heavy snow"
  | 95 => "Thunderstorm"
  | 96 => "Thunderstorm with light hail"
  | 99 => "Thunderstorm with heavy hail"
  | _ => "Unknown"

/-- `getOpenMeteoIcon`: WMO weather code to icon, with the source's default icon. -/
def getOpenMeteoIcon : Int → String
  | 0 => "‚òÄÔ∏è"
  | 1 => "üå§Ô∏è"
  | 2 => "‚õÖ"
  | 3 => "‚òÅÔ∏è"
  | 45 => "üå´Ô∏è"
  | 48 => "üå´Ô∏è"
  | 51 => "üå¶Ô∏è"
  | 53 => "üå¶Ô∏è"
  | 55 => "üå¶Ô∏è"
  | 61 => "üåßÔ∏è"
  | 63 => "üåßÔ∏è"
  | 65 => "üåßÔ∏è"
  | 71 => "üå®Ô∏è"
  | 73 => "üå®Ô∏è"
  | 75 => "‚ùÑÔ∏è"
  | 95 => "‚õàÔ∏è"
  | 96 => "‚õàÔ∏è"
  | 99 => "‚õàÔ∏è"
  | _ => "‚õÖ"

/-- The `main` block of an OpenWeatherMap current-weather payload. -/
structure OwmMain where
  temp : ℚ
  feels_like : ℚ
  humidity : ℚ
  pressure : ℚ
deriving Repr, DecidableEq

/-- The `wind` block of an OpenWeatherMap current-weather payload. -/
structure OwmWind where
  speed : ℚ
  deg : ℚ
deriving Repr, DecidableEq

/-- One entry of the `weather` array of an OpenWeatherMap payload. -/
structure OwmWeatherItem where
  id : Int
  description : String
deriving Repr, DecidableEq

/-- A structurally well-formed OpenWeatherMap current-weather payload; `weather0`
models `data.weather[0]`, which the source reads unconditionally. -/
structure OwmCurrent where
  main : OwmMain
  wind : OwmWind
  visibility : ℚ
  clouds_all : ℚ
  weather0 : OwmWeatherItem
  dt : ℚ
deriving Repr, DecidableEq

/-- A structurally well-formed Weatherbit current observation (`data.data[0]`).
`uv` is guarded by `|| 0` in the source, so it is modelled as possibly absent. -/
structure WbCurrent where
  temp : ℚ
  app_temp : ℚ
  rh : ℚ
  pres : ℚ
  wind_spd : ℚ
  wind_dir : ℚ
  vis : ℚ
  uv : Option ℚ
  clouds : ℚ
  weather_description : String
  weather_code : Int
deriving Repr, DecidableEq

/-- The `current` block of an Open-Meteo forecast payload.  `precipitation` is
guarded by `|| 0` in the source, so it is modelled as possibly absent. -/
structure OmCurrent where
  temperature_2m : ℚ
  apparent_temperature : ℚ
  relative_humidity_2m : ℚ
  pressure_msl : ℚ
  wind_speed_10m : ℚ
  wind_direction_10m : ℚ
  cloud_cover : ℚ
  precipitation : Option ℚ
  weather_code : Int
deriving Repr, DecidableEq

/-- `normalizeOpenWeatherMapData`: maps a raw OpenWeatherMap payload to the
common shape.  Pure: the timestamp comes from the payload's `dt`. -/
def normalizeOpenWeatherMapData (data : OwmCurrent) : NormalizedWeather where
  source := "OpenWeatherMap"
  temperature := data.main.temp
  feelsLike := data.main.feels_like
  humidity := data.main.humidity
  pressure := data.main.pressure
  windSpeed := data.wind.speed * 3.6
  windDirection := data.wind.deg
  visibility := data.visibility / 1000
  uvIndex := 0
  cloudCover := data.clouds_all
  precipitationChance := 0
  description := data.weather0.description
  icon := getWeatherIcon data.weather0.id
  timestamp := data.dt

/-- `normalizeWeatherbitData`: maps a raw Weatherbit observation to the common
shape.  The source stamps `timestamp: Date.now() / 1000`; that hidden clock
read is made explicit as the `now` argument. -/
def normalizeWeatherbitData (data : WbCurrent) (now : ℚ) : NormalizedWeather where
  source := "Weatherbit"
  temperature := data.temp
  feelsLike := data.app_temp
  humidity := data.rh
  pressure := data.pres
  windSpeed := data.wind_spd * 3.6
  windDirection := data.wind_dir
  visibility := data.vis
  uvIndex := data.uv.getD 0
  cloudCover := data.clouds
  precipitationChance := 0
  description := data.weather_description
  icon := getWeatherIcon data.weather_code
  timestamp := now

/-- `normalizeOpenMeteoData`: maps a raw Open-Meteo payload (its `current`
block) to the common shape.  Like the Weatherbit normalizer it stamps
`Date.now() / 1000`, made explicit as `now`.  Visibility is hard-coded to 10
("Default visibility") and uvIndex to 0. -/
def normalizeOpenMeteoData (current : OmCurrent) (now : ℚ) : NormalizedWeather where
  source := "Open-Meteo"
  temperature := current.temperature_2m
  feelsLike := current.apparent_temperature
  humidity := current.relative_humidity_2m
  pressure := current.pressure_msl
  windSpeed := current.wind_speed_10m
  windDirection := current.wind_direction_10m
  visibility := 10
  uvIndex := 0
  cloudCover := current.cloud_cover
  precipitationChance := current.precipitation.getD 0
  description := getOpenMeteoDescription current.weather_code
  icon := getOpenMeteoIcon current.weather_code
  timestamp := now

/-- The source's per-field accumulation `sources.forEach(s => acc += s.f || 0)`
followed by `Math.round((acc / numSources) * 10) / 10`.  On modelled records
every numeric field is present, so `|| 0` is the identity. -/
def averagedField (sources : List NormalizedWeather) (f : NormalizedWeather → ℚ) : ℚ :=
  roundTo1 ((sources.map f).sum / sources.length)

/-- `createEnsembleWeather`: `null` for no sources, the single record unchanged
for one source, and for two or more the field-wise rounded average, with
`description`/`icon` from `sources[0]` and `sources` the providerIds in input
order (`sources.map(s => s.source)`). -/
def createEnsembleWeather (sources : List NormalizedWeather) :
    Option (NormalizedWeather ⊕ EnsembleWeather) :=
  match sources with
  | [] => none
  | [s] => some (Sum.inl s)
  | s₀ :: _ :: _ =>
      some (Sum.inr
        { temperature := averagedField sources (·.temperature)
          feelsLike := averagedField sources (·.feelsLike)
          humidity := averagedField sources (·.humidity)
          pressure := averagedField sources (·.pressure)
          windSpeed := averagedField sources (·.windSpeed)
          windDirection := averagedField sources (·.windDirection)
          visibility := averagedField sources (·.visibility)
          uvIndex := averagedField sources (·.uvIndex)
          cloudCover := averagedField sources (·.cloudCover)
          precipitationChance := averagedField sources (·.precipitationChance)
          description := s₀.description
          icon := s₀.icon
          sources := sources.map (·.source) })

/-- A raw Weatherbit forecast slot; passed through `slice` unchanged by the
source, so only a representative shape is needed. -/
structure WbSlot where
  datetime : Option String
  temp : ℚ
deriving Repr, DecidableEq

/-- The `hourly` block of an Open-Meteo payload: parallel time-series arrays. -/
structure OmHourly where
  time : List String
  temperature_2m : List ℚ
  apparent_temperature : List ℚ
  relative_humidity_2m : List ℚ
  precipitation_probability : List ℚ
  weather_code : List Int
  wind_speed_10m : List ℚ
  uv_index : List ℚ
deriving Repr, DecidableEq

/-- The `daily` block of an Open-Meteo payload: parallel time-series arrays. -/
structure OmDaily where
  time : List String
  temperature_2m_max : List ℚ
  temperature_2m_min : List ℚ
  weather_code : List Int
  precipitation_sum : List ℚ
  wind_speed_10m_max : List ℚ
  uv_index_max : List ℚ
  precipitation_probability_max : List ℚ
deriving Repr, DecidableEq

/-- A full Open-Meteo payload (`openMeteoResult.value.data`). -/
structure OmData where
  current : OmCurrent
  hourly : OmHourly
  daily : OmDaily
deriving Repr, DecidableEq

/-- A slot built by `processOpenMeteoHourly`.  In the source a parallel array
shorter than `time` yields `undefined` at the overrun index; that is modelled
by `Option` (`List.get?`). -/
structure ProcessedHourly where
  time : Option String
  temp : Option ℚ
  feels_like : Option ℚ
  humidity : Option ℚ
  precipitation_prob : Option ℚ
  weather_code : Option Int
  wind_speed : Option ℚ
  uv_index : Option ℚ
deriving Repr, DecidableEq

/-- A slot built by `processOpenMeteoDaily`, with the same `undefined`
modelling as `ProcessedHourly`. -/
structure ProcessedDaily where
  date : Option String
  max_temp : Option ℚ
  min_temp : Option ℚ
  weather_code : Option Int
  precipitation_sum : Option ℚ
  wind_speed_max : Option ℚ
  uv_index_max : Option ℚ
  precipitation_probability_max : Option ℚ
deriving Repr, DecidableEq

/-- The hourly slot at index `i` of an Open-Meteo hourly block. -/
def omHourlySlot (hourly : OmHourly) (i : ℕ) : ProcessedHourly where
  time := hourly.time.get? i
  temp := hourly.temperature_2m.get? i
  feels_like := hourly.apparent_temperature.get? i
  humidity := hourly.relative_humidity_2m.get? i
  precipitation_prob := hourly.precipitation_probability.get? i
  weather_code := hourly.weather_code.get? i
  wind_speed := hourly.wind_speed_10m.get? i
  uv_index := hourly.uv_index.get? i

/-- The full derived hourly series (one slot per entry of `hourly.time`). -/
def omHourlySlots (hourly : OmHourly) : List ProcessedHourly :=
  (List.range hourly.time.length).map (omHourlySlot hourly)

/-- `processOpenMeteoHourly`: `for (i = 0; i < Math.min(24, hourly.time.length); i++)`
pushing one slot per index. -/
def processOpenMeteoHourly (data : OmData) : List ProcessedHourly :=
  (List.range (min 24 data.hourly.time.length)).map (omHourlySlot data.hourly)

/-- The daily slot at index `i` of an Open-Meteo daily block. -/
def omDailySlot (daily : OmDaily) (i : ℕ) : ProcessedDaily where
  date := daily.time.get? i
  max_temp := daily.temperature_2m_max.get? i
  min_temp := daily.temperature_2m_min.get? i
  weather_code := daily.weather_code.get? i
  precipitation_sum := daily.precipitation_sum.get? i
  wind_speed_max := daily.wind_speed_10m_max.get? i
  uv_index_max := daily.uv_index_max.get? i
  precipitation_probability_max := daily.precipitation_probability_max.get? i

/-- The full derived daily series (one slot per entry of `daily.time`). -/
def omDailySlots (daily : OmDaily) : List ProcessedDaily :=
  (List.range daily.time.length).map (omDailySlot daily)

/-- `processOpenMeteoDaily`: `for (i = 0; i < Math.min(7, daily.time.length); i++)`
pushing one slot per index. -/
def processOpenMeteoDaily (data : OmData) : List ProcessedDaily :=
  (List.range (min 7 data.daily.time.length)).map (omDailySlot data.daily)

/-- An OpenWeatherMap fetch result: `{ current, forecast }` (the forecast block
is unused by ensemble processing). -/
structure OwmPayload where
  current : OwmCurrent
deriving Repr, DecidableEq

/-- A Weatherbit fetch result: `{ current, daily, hourly }`.  `daily`/`hourly`
are `none` when the corresponding field is absent (falsy) — a present array,
even empty, is truthy in the source's `value.daily` test. -/
structure WeatherbitPayload where
  current : WbCurrent
  daily : Option (List WbSlot)
  hourly : Option (List WbSlot)
deriving Repr, DecidableEq

/-- An Open-Meteo fetch result: `{ data }`. -/
structure OmPayload where
  data : OmData
deriving Repr, DecidableEq

/-- An air-quality fetch result: OpenWeatherMap (`data.list[0]`, whose
`main.aqi` is on the provider's 1–5 scale) or the Open-Meteo fallback
(`data.current`, whose `us_aqi` is on the 0–500 US scale). -/
inductive AirQualityResult
  | owm (main_aqi : ℚ)
  | openMeteo (us_aqi : ℚ)
deriving Repr, DecidableEq

/-- Severity and display fields of an alert, each possibly absent. -/
structure AlertProps where
  headline : Option String
  event : Option String
  title : Option String
  description : Option String
  instruction : Option String
  summary : Option String
  severity : Option String
deriving Repr, DecidableEq

/-- A raw alert record.  `properties` models the nested `alert.properties`
object (absent on feeds that put the fields at the top level); `top` models the
alert object's own top-level fields, used by the `alert.properties || alert`
fallback. -/
structure Alert where
  properties : Option AlertProps
  top : AlertProps
deriving Repr, DecidableEq

/-- An alerts fetch result: `{ source, alerts }`. -/
structure AlertsResult where
  source : String
  alerts : List Alert
deriving Repr, DecidableEq

/-- The outcome of `Promise.allSettled` over the five fetches: `some` for a
fulfilled promise's value, `none` for a rejected one. -/
structure FetchResults where
  owm : Option OwmPayload
  weatherbit : Option WeatherbitPayload
  openMeteo : Option OmPayload
  airQuality : Option AirQualityResult
  alerts : Option AlertsResult
deriving Repr, DecidableEq

/-- An hourly entry of `weatherData.hourly`: either a raw Weatherbit slot or a
processed Open-Meteo slot. -/
def HourlyEntry := WbSlot ⊕ ProcessedHourly
deriving instance Repr, DecidableEq for HourlyEntry

/-- A daily entry of `weatherData.daily`. -/
def DailyEntry := WbSlot ⊕ ProcessedDaily
deriving instance Repr, DecidableEq for DailyEntry

/-- `processEnsembleForecasts`: strict priority selection.  The source's test
`weatherbitResult.status === 'fulfilled' && weatherbitResult.value.hourly` is
`Option.bind`: fulfilled with a present (truthy) array.  On that branch the
series is `slice(0, 24)` (`slice(0, 7)` daily); otherwise a fulfilled
Open-Meteo result is derived; otherwise the series stays `[]`. -/
def processEnsembleForecasts (results : FetchResults) :
    List HourlyEntry × List DailyEntry :=
  let hourly : List HourlyEntry :=
    match results.weatherbit.bind WeatherbitPayload.hourly with
    | some hl => (hl.take 24).map Sum.inl
    | none =>
        match results.openMeteo with
        | some om => (processOpenMeteoHourly om.data).map Sum.inr
        | none => []
  let daily : List DailyEntry :=
    match results.weatherbit.bind WeatherbitPayload.daily with
    | some dl => (dl.take 7).map Sum.inl
    | none =>
        match results.openMeteo with
        | some om => (processOpenMeteoDaily om.data).map Sum.inr
        | none => []
  (hourly, daily)

/-- The `weatherData` state object of the app (`current`, `hourly`, `daily`,
`alerts`, `airQuality`). -/
structure WeatherData where
  current : Option (NormalizedWeather ⊕ EnsembleWeather)
  hourly : List HourlyEntry
  daily : List DailyEntry
  alerts : List Alert
  airQuality : Option AirQualityResult
deriving Repr, DecidableEq

/-- `weatherData` as initialized in the constructor. -/
def initialWeatherData : WeatherData where
  current := none
  hourly := []
  daily := []
  alerts := []
  airQuality := none

/-- `processEnsembleData`: normalizes each fulfilled weather result (pushed in
the fixed order OpenWeatherMap, Weatherbit, Open-Meteo), aggregates them,
processes forecasts, and stores air quality / alerts only when their fetches
were fulfilled.  `now` is the clock read hidden inside the two impure
normalizers. -/
def processEnsembleData (now : ℚ) (results : FetchResults) (st : WeatherData) :
    WeatherData :=
  let currentWeatherSources : List NormalizedWeather :=
    (results.owm.map (fun p => normalizeOpenWeatherMapData p.current)).toList
    ++ (results.weatherbit.map (fun p => normalizeWeatherbitData p.current now)).toList
    ++ (results.openMeteo.map (fun p => normalizeOpenMeteoData p.data.current now)).toList
  let st := { st with current := createEnsembleWeather currentWeatherSources }
  let fc := processEnsembleForecasts results
  let st := { st with hourly := fc.1, daily := fc.2 }
  let st :=
    match results.airQuality with
    | some aq => { st with airQuality := some aq }
    | none => st
  match results.alerts with
  | some al => { st with alerts := al.alerts }
  | none => st

/-- `loadWeatherData`'s data path for one settled cycle.  `Promise.allSettled`
never rejects and processing of structurally well-formed settled results never
throws, so the `catch` branch — the only site that surfaces a user-visible
error (`showError('Error loading weather data…')`) — is not reached: the
second component, the error message shown to the user, is always `none`. -/
def loadWeatherCycle (now : ℚ) (results : FetchResults) (st : WeatherData) :
    WeatherData × Option String :=
  (processEnsembleData now results st, none)

/-- The UV tip string, with the source's template interpolation of `uvIndex`
made explicit (`toString` stands in for JavaScript number formatting). -/
def uvTipText (uvIndex : ℚ) : String :=
  "‚òÄÔ∏è UV Index is " ++ toString uvIndex ++ ". Wear sunscreen and protective clothing."

/-- The remaining fixed tip strings pushed by `updateHealthTips`. -/
def highTemperatureTipText : String := "üå°Ô∏è High temperature! Stay hydrated and avoid prolonged sun exposure."

def freezingTipText : String := "‚ùÑÔ∏è Freezing temperatures! Dress warmly and watch for icy conditions."

def highHumidityTipText : String := "üíß High humidity may make it feel warmer. Stay cool and hydrated."

def lowHumidityTipText : String := "üèúÔ∏è Low humidity may cause dry skin. Use moisturizer and stay hydrated."

def poorAirQualityTipText : String := "üò∑ Poor air quality. Consider wearing a mask outdoors."

def strongWindTipText : String := "üí® Strong winds. Secure loose objects and be cautious when driving."

def favorableTipText : String := "üåü Great weather conditions! Perfect day for outdoor activities."

/-- `weather.uvIndex` for the stored current reading, which is either a single
normalized record or an ensemble object. -/
def currentUvIndex : NormalizedWeather ⊕ EnsembleWeather → ℚ
  | Sum.inl r => r.uvIndex
  | Sum.inr e => e.uvIndex

/-- `weather.temperature` for the stored current reading. -/
def currentTemperature : NormalizedWeather ⊕ EnsembleWeather → ℚ
  | Sum.inl r => r.temperature
  | Sum.inr e => e.temperature

/-- `weather.humidity` for the stored current reading. -/
def currentHumidity : NormalizedWeather ⊕ EnsembleWeather → ℚ
  | Sum.inl r => r.humidity
  | Sum.inr e => e.humidity

/-- `weather.windSpeed` for the stored current reading. -/
def currentWindSpeed : NormalizedWeather ⊕ EnsembleWeather → ℚ
  | Sum.inl r => r.windSpeed
  | Sum.inr e => e.windSpeed

/-- The AQI value `updateHealthTips` compares against 100:
`airQuality.source === 'openweathermap' ? airQuality.data.main.aqi
: airQuality.data.us_aqi` — the raw provider value, with no scale mapping. -/
def healthTipsAqi : AirQualityResult → ℚ
  | AirQualityResult.owm a => a
  | AirQualityResult.openMeteo a => a

/-- `updateHealthTips`: the ordered tip list derived from the current reading
and air quality.  Rules run in source order (UV, temperature, humidity, air
quality, wind); `weather.uvIndex || 0` is the identity on modelled values; the
guard `airQuality && airQuality.data` is `isSome` on modelled results; if no
rule fired the single favorable-conditions tip is pushed. -/
def updateHealthTips (weather : NormalizedWeather ⊕ EnsembleWeather)
    (airQuality : Option AirQualityResult) : List String :=
  let uvIndex := currentUvIndex weather
  let tips : List String :=
    (if uvIndex ≥ 3 then [uvTipText uvIndex] else [])
    ++ (if currentTemperature weather > 30 then [highTemperatureTipText]
        else if currentTemperature weather < 0 then [freezingTipText] else [])
    ++ (if currentHumidity weather > 70 then [highHumidityTipText]
        else if currentHumidity weather < 30 then [lowHumidityTipText] else [])
    ++ (match airQuality with
        | some aq => if healthTipsAqi aq > 100 then [poorAirQualityTipText] else []
        | none => [])
    ++ (if currentWindSpeed weather > 25 then [strongWindTipText] else [])
  if tips = [] then [favorableTipText] else tips

/-- Modelled from the spec: the provider-specific 1–5 air-quality scale mapped
onto the 0–500 US-AQI-equivalent scale (each of the five bands mapped to its
band's upper bound on the US scale), the mapping §4.6 requires before the
`AQI > 100` comparison.  Any monotone mapping sending levels 3–5 above 100
gives the same comparisons; the specific bounds follow `getAQILevel`'s bands. -/
def mapOwmScaleToUsAqi (aqi : ℚ) : ℚ :=
  if aqi ≤ 1 then 50 else if aqi ≤ 2 then 100 else if aqi ≤ 3 then 150
  else if aqi ≤ 4 then 200 else 300

/-- JavaScript string truthiness for the `a || b || …` chains over alert
fields: an absent or empty string is falsy. -/
def strTruthy : Option String → Option String
  | some s => if s = "" then none else some s
  | none => none

/-- First truthy string in the chain, else the chain's literal default. -/
def firstTruthyString : List (Option String) → String → String
  | [], dflt => dflt
  | x :: xs, dflt =>
      match strTruthy x with
      | some s => s
      | none => firstTruthyString xs dflt

/-- `description.length > n` truncation to `substring(0, n) + '...'`. -/
def truncateDescription (n : ℕ) (d : String) : String :=
  if n < d.length then d.take n ++ "..." else d

/-- An alert as rendered into the always-visible alerts card. -/
structure RenderedAlert where
  title : String
  description : String
  severityBadge : Option String
deriving Repr, DecidableEq

/-- `const properties = alert.properties || alert`: the display fallback used
by both the card and the banner rendering. -/
def alertDisplayProps (alert : Alert) : AlertProps :=
  alert.properties.getD alert.top

/-- One alerts-card item: title/description fallback chains with their literal
defaults, and the severity badge rendered only for a truthy severity. -/
def renderAlertCard (alert : Alert) : RenderedAlert :=
  let properties := alertDisplayProps alert
  { title := firstTruthyString [properties.headline, properties.event, properties.title]
      "Weather Alert"
    description := truncateDescription 150
      (firstTruthyString [properties.description, properties.instruction, properties.summary]
        "Check local weather services for details.")
    severityBadge := strTruthy properties.severity }

/-- The full informational view: every alert yields one card item. -/
def alertsCardItems (alerts : List Alert) : List RenderedAlert :=
  alerts.map renderAlertCard

/-- JavaScript `String.prototype.toLowerCase` (character-wise lowercasing; it
agrees with the library on the ASCII severity strings compared here). -/
def jsToLowerCase (s : String) : String := ⟨s.data.map Char.toLower⟩

/-- The banner filter predicate: `alert.properties?.severity?.toLowerCase()`
compared against the three severe classes.  Note it reads only the nested
`properties` object — no top-level fallback here. -/
def isSevereAlert (alert : Alert) : Bool :=
  match alert.properties with
  | some p =>
      match p.severity with
      | some s =>
          jsToLowerCase s = "severe" || jsToLowerCase s = "extreme"
            || jsToLowerCase s = "critical"
      | none => false
  | none => false

/-- The severe-only subset used for the interrupting banner. -/
def severeAlerts (alerts : List Alert) : List Alert :=
  alerts.filter isSevereAlert

/-- A banner item (same fallbacks as the card, 200-character truncation). -/
def renderAlertBanner (alert : Alert) : RenderedAlert :=
  let properties := alertDisplayProps alert
  { title := firstTruthyString [properties.headline, properties.event, properties.title]
      "Weather Alert"
    description := truncateDescription 200
      (firstTruthyString [properties.description, properties.instruction, properties.summary]
        "Check local weather services for details.")
    severityBadge := strTruthy properties.severity }

/-- The banner contents: one item per severe alert. -/
def alertsBannerItems (alerts : List Alert) : List RenderedAlert :=
  (severeAlerts alerts).map renderAlertBanner

/-- `CONFIG.APP.MAX_OBSERVATIONS`. -/
def MAX_OBSERVATIONS : ℕ := 50

/-- A hyperlocal observation; its contents are passed through storage
unchanged, so a representative shape suffices. -/
structure Observation where
  id : ℕ
  note : String
deriving Repr, DecidableEq

/-- The slice of app state that `saveObservation` touches: the
`useLocalStorage` flag (never set on the IndexedDB-available initialization
path) and the stored observation list behind `localStorage`. -/
structure AppState where
  useLocalStorage : Bool
  observations : List Observation
deriving Repr, DecidableEq

mutual

/-- `saveObservation`, fuel-indexed: `none` means the call consumed all fuel
without completing — for unbounded fuel, divergence.  When `useLocalStorage`
is false it awaits `saveToIndexedDB`; otherwise it unshifts the observation
and splices the list down to `MAX_OBSERVATIONS`. -/
def saveObservation : ℕ → AppState → Observation → Option AppState
  | 0, _, _ => none
  | fuel + 1, st, observation =>
      if !st.useLocalStorage then
        saveToIndexedDB fuel st observation
      else
        let observations := observation :: st.observations
        some { st with
          observations :=
            if MAX_OBSERVATIONS < observations.length then
              observations.take MAX_OBSERVATIONS
            else observations }

/-- `saveToIndexedDB`: "For now, fall back to localStorage" — it simply calls
`this.saveObservation(observation)` again with unchanged state. -/
def saveToIndexedDB : ℕ → AppState → Observation → Option AppState
  | 0, _, _ => none
  | fuel + 1, st, observation => saveObservation fuel st observation

end

/-- Modelled from the spec: the fulfilled weather providers listed in the fixed
priority order Primary (OpenWeatherMap), Secondary (Weatherbit), Tertiary
(Open-Meteo) — the order the spec says `contributingProviders` must follow. -/
def priorityProviders (results : FetchResults) : List String :=
  (if results.owm.isSome then ["OpenWeatherMap"] else [])
  ++ (if results.weatherbit.isSome then ["Weatherbit"] else [])
  ++ (if results.openMeteo.isSome then ["Open-Meteo"] else [])

/-- How many of the three weather fetches were fulfilled. -/
def weatherFulfilledCount (results : FetchResults) : ℕ :=
  (if results.owm.isSome then 1 else 0)
  + (if results.weatherbit.isSome then 1 else 0)
  + (if results.openMeteo.isSome then 1 else 0)

/-! ### Concrete fixtures -/

/-- A benign OpenWeatherMap payload (temperature 0 °C, wind 5 m/s = 18 km/h,
humidity 50 %, no extreme condition). -/
def owmPayloadEx : OwmCurrent where
  main := { temp := 0, feels_like := 1, humidity := 50, pressure := 1013 }
  wind := { speed := 5, deg := 180 }
  visibility := 10000
  clouds_all := 20
  weather0 := { id := 800, description := "clear sky" }
  dt := 1700000000

/-- A Weatherbit observation with temperature −0.1 °C. -/
def wbPayloadEx : WbCurrent where
  temp := -1/10
  app_temp := 0
  rh := 40
  pres := 1010
  wind_spd := 3
  wind_dir := 90
  vis := 16
  uv := some 2
  clouds := 10
  weather_description := "Clear sky"
  weather_code := 800

/-- An Open-Meteo current block. -/
def omCurrentEx : OmCurrent where
  temperature_2m := 21
  apparent_temperature := 20
  relative_humidity_2m := 55
  pressure_msl := 1012
  wind_speed_10m := 12
  wind_direction_10m := 200
  cloud_cover := 30
  precipitation := some 0
  weather_code := 2

/-- The normalized OpenWeatherMap fixture. -/
def rOwmEx : NormalizedWeather := normalizeOpenWeatherMapData owmPayloadEx

/-- The normalized Weatherbit fixture (clock reading 1700000000). -/
def rWbEx : NormalizedWeather := normalizeWeatherbitData wbPayloadEx 1700000000

/-- The normalized Open-Meteo fixture (clock reading 1700000000). -/
def rOmEx : NormalizedWeather := normalizeOpenMeteoData omCurrentEx 1700000000

/-- The given numeric field of a stored consensus when it is a true ensemble
(two or more contributors); `none` otherwise. -/
def ensembleField (f : EnsembleWeather → ℚ) :
    Option (NormalizedWeather ⊕ EnsembleWeather) → Option ℚ
  | some (Sum.inr e) => some (f e)
  | _ => none

/-- The `sources` list of a stored consensus when it is a true ensemble. -/
def ensembleSources :
    Option (NormalizedWeather ⊕ EnsembleWeather) → Option (List String)
  | some (Sum.inr e) => some e.sources
  | _ => none

/-! ### C1 — consensus fields are rounded means -/

/-- C1 (amended): for every list of two or more normalized records, every
numeric field of the ensemble equals the arithmetic mean of that field across
the records, rounded to one decimal place with JavaScript `Math.round`, which
sends half-way cases toward positive infinity (round-half-up).  Round-half-up
agrees with the claimed round-half-away-from-zero exactly on non-negative
arguments, so the original claim holds whenever the mean is non-negative but
not in general for negative means. -/
theorem ensemble_fields_are_half_up_rounded_means
    (sources : List NormalizedWeather) (h : 2 ≤ sources.length) :
    ∃ e, createEnsembleWeather sources = some (Sum.inr e) ∧
      (e.temperature = roundTo1 ((sources.map (·.temperature)).sum / sources.length) ∧
       e.feelsLike = roundTo1 ((sources.map (·.feelsLike)).sum / sources.length) ∧
       e.humidity = roundTo1 ((sources.map (·.humidity)).sum / sources.length) ∧
       e.pressure = roundTo1 ((sources.map (·.pressure)).sum / sources.length) ∧
       e.windSpeed = roundTo1 ((sources.map (·.windSpeed)).sum / sources.length) ∧
       e.windDirection = roundTo1 ((sources.map (·.windDirection)).sum / sources.length) ∧
       e.visibility = roundTo1 ((sources.map (·.visibility)).sum / sources.length) ∧
       e.uvIndex = roundTo1 ((sources.map (·.uvIndex)).sum / sources.length) ∧
       e.cloudCover = roundTo1 ((sources.map (·.cloudCover)).sum / sources.length) ∧
       e.precipitationChance =
         roundTo1 ((sources.map (·.precipitationChance)).sum / sources.length)) ∧
      (∀ x : ℚ, 0 ≤ x → roundTo1 x = roundHalfAwayTo1 x) := by
  cases sources with
  | nil => simp at h
  | cons s₀ tl =>
      cases tl with
      | nil => simp at h
      | cons s₁ rest =>
          refine ⟨_, rfl, ⟨rfl, rfl, rfl, rfl, rfl, rfl, rfl, rfl, rfl, rfl⟩, ?_⟩
          intro x hx
          have h10 : (0 : ℚ) ≤ x * 10 := by positivity
          simp [roundTo1, roundHalfAwayTo1, jsMathRound, awayRound, hx, h10]

/-- Witness for C1: the amended theorem applied to the two-record fixture. -/
theorem ensemble_fields_are_half_up_rounded_means_witness :
    ensembleField EnsembleWeather.humidity (createEnsembleWeather [rOwmEx, rWbEx]) =
      some (roundTo1 ((([rOwmEx, rWbEx].map (·.humidity)).sum) /
        (([rOwmEx, rWbEx] : List NormalizedWeather).length : ℚ))) := by
  obtain ⟨e, he, hf, -⟩ :=
    ensemble_fields_are_half_up_rounded_means [rOwmEx, rWbEx] (by norm_num)
  rw [he]
  simpa [ensembleField] using hf.2.2.1

/-- C1 counterexample: temperatures 0 and −0.1 average to −0.05; the code
rounds it to 0.0 (`Math.round(-0.5) = -0`) while round-half-away-from-zero
gives −0.1, so the claimed rounding fails for this negative mean. -/
theorem ensemble_negative_tie_rounding_counterexample :
    ensembleField EnsembleWeather.temperature (createEnsembleWeather [rOwmEx, rWbEx]) =
      some 0 ∧
    roundHalfAwayTo1 ((([rOwmEx, rWbEx].map (·.temperature)).sum) /
      (([rOwmEx, rWbEx] : List NormalizedWeather).length : ℚ)) = -1/10 ∧
    (0 : ℚ) ≠ -1/10 := by
  refine ⟨?_, ?_, by norm_num⟩
  · have h : averagedField [rOwmEx, rWbEx] (·.temperature) = 0 := by
      norm_num [averagedField, rOwmEx, rWbEx, normalizeOpenWeatherMapData,
        normalizeWeatherbitData, owmPayloadEx, wbPayloadEx, roundTo1, jsMathRound]
    simp [ensembleField, createEnsembleWeather, h]
  · norm_num [roundHalfAwayTo1, awayRound, rOwmEx, rWbEx,
      normalizeOpenWeatherMapData, normalizeWeatherbitData, owmPayloadEx, wbPayloadEx]

/-! ### C2 — contributingProviders order -/

/-- The `current` field written by `processEnsembleData` is exactly the
aggregation of the normalized fulfilled results, pushed in the fixed order
OpenWeatherMap, Weatherbit, Open-Meteo. -/
lemma processEnsembleData_current (now : ℚ) (results : FetchResults)
    (st : WeatherData) :
    (processEnsembleData now results st).current =
      createEnsembleWeather
        ((results.owm.map (fun p => normalizeOpenWeatherMapData p.current)).toList
          ++ (results.weatherbit.map (fun p => normalizeWeatherbitData p.current now)).toList
          ++ (results.openMeteo.map (fun p => normalizeOpenMeteoData p.data.current now)).toList) := by
  obtain ⟨o, w, m, aq, al⟩ := results
  cases aq <;> cases al <;> rfl

/-- C2 (amended): `createEnsembleWeather` lists providerIds in the input order
of its records (`sources.map(s => s.source)`), not in a fixed priority order;
the priority ordering of `contributingProviders` holds for the pipeline because
`processEnsembleData` always pushes fulfilled results in the fixed order
Primary (OpenWeatherMap), Secondary (Weatherbit), Tertiary (Open-Meteo): for
every subset with at least two fulfilled providers the consensus lists exactly
the fulfilled providers in that priority order, and with exactly one fulfilled
provider the consensus is that single record itself, which carries no
`sources` list. -/
theorem contributing_providers_pipeline_priority_order :
    (∀ sources : List NormalizedWeather, 2 ≤ sources.length →
      ∃ e, createEnsembleWeather sources = some (Sum.inr e) ∧
        e.sources = sources.map NormalizedWeather.source) ∧
    (∀ (now : ℚ) (results : FetchResults) (st : WeatherData),
      2 ≤ weatherFulfilledCount results →
      ∃ e, (processEnsembleData now results st).current = some (Sum.inr e) ∧
        e.sources = priorityProviders results) ∧
    (∀ (now : ℚ) (results : FetchResults) (st : WeatherData),
      weatherFulfilledCount results = 1 →
      ∃ r, (processEnsembleData now results st).current = some (Sum.inl r)) := by
  refine ⟨?_, ?_, ?_⟩
  · intro sources h
    cases sources with
    | nil => simp at h
    | cons s₀ tl =>
        cases tl with
        | nil => simp at h
        | cons s₁ rest => exact ⟨_, rfl, rfl⟩
  · intro now results st h
    have hcur := processEnsembleData_current now results st
    obtain ⟨o, w, m, aq, al⟩ := results
    cases o <;> cases w <;> cases m <;>
      first
        | exact ⟨_, hcur.trans rfl, rfl⟩
        | simp [weatherFulfilledCount] at h
  · intro now results st h
    have hcur := processEnsembleData_current now results st
    obtain ⟨o, w, m, aq, al⟩ := results
    cases o <;> cases w <;> cases m <;>
      first
        | exact ⟨_, hcur.trans rfl⟩
        | simp [weatherFulfilledCount] at h

/-- Witness for C2: the pipeline part applied to a cycle where Weatherbit and
Open-Meteo are fulfilled and OpenWeatherMap is rejected. -/
theorem contributing_providers_pipeline_priority_order_witness :
    ensembleSources ((processEnsembleData 0
        ⟨none, some ⟨wbPayloadEx, none, none⟩,
          some ⟨⟨omCurrentEx, ⟨[], [], [], [], [], [], [], []⟩,
            ⟨[], [], [], [], [], [], [], []⟩⟩⟩, none, none⟩
        initialWeatherData).current) =
      some (priorityProviders
        ⟨none, some ⟨wbPayloadEx, none, none⟩,
          some ⟨⟨omCurrentEx, ⟨[], [], [], [], [], [], [], []⟩,
            ⟨[], [], [], [], [], [], [], []⟩⟩⟩, none, none⟩) := by
  obtain ⟨e, he, hs⟩ :=
    contributing_providers_pipeline_priority_order.2.1 0
      ⟨none, some ⟨wbPayloadEx, none, none⟩,
        some ⟨⟨omCurrentEx, ⟨[], [], [], [], [], [], [], []⟩,
          ⟨[], [], [], [], [], [], [], []⟩⟩⟩, none, none⟩
      initialWeatherData (by norm_num [weatherFulfilledCount])
  rw [he]
  simp [ensembleSources, hs]

/-- C2 counterexample: aggregation presented with records in the order
Open-Meteo then OpenWeatherMap reports `sources` in that input order, not
reordered to the priority order OpenWeatherMap, Open-Meteo. -/
theorem contributing_providers_input_order_counterexample :
    ensembleSources (createEnsembleWeather [rOmEx, rOwmEx]) =
      some ["Open-Meteo", "OpenWeatherMap"] ∧
    (["Open-Meteo", "OpenWeatherMap"] : List String) ≠
      ["OpenWeatherMap", "Open-Meteo"] := by
  refine ⟨?_, by decide⟩
  simp [ensembleSources, createEnsembleWeather, rOmEx, rOwmEx,
    normalizeOpenMeteoData, normalizeOpenWeatherMapData]

/-! ### C3 — normalization purity -/

/-- C3 (amended): the Weatherbit and Open-Meteo normalizers read the current
clock for the `timestamp` field (`Date.now() / 1000`), so two calls on the same
payload produce identical records exactly when the clock readings coincide;
all fields other than `timestamp` depend on the payload alone.  (The
OpenWeatherMap normalizer takes no clock reading — its timestamp is the
payload's `dt` — so it is a pure function of the payload.) -/
theorem normalize_pure_except_clock_timestamp
    (wb : WbCurrent) (om : OmCurrent) (t₁ t₂ : ℚ) :
    (normalizeWeatherbitData wb t₁ = normalizeWeatherbitData wb t₂ ↔ t₁ = t₂) ∧
    (normalizeOpenMeteoData om t₁ = normalizeOpenMeteoData om t₂ ↔ t₁ = t₂) ∧
    { normalizeWeatherbitData wb t₁ with timestamp := 0 } =
      { normalizeWeatherbitData wb t₂ with timestamp := 0 } ∧
    { normalizeOpenMeteoData om t₁ with timestamp := 0 } =
      { normalizeOpenMeteoData om t₂ with timestamp := 0 } ∧
    (normalizeWeatherbitData wb t₁).timestamp = t₁ ∧
    (normalizeOpenMeteoData om t₁).timestamp = t₁ := by
  refine ⟨⟨fun h => ?_, fun h => by rw [h]⟩, ⟨fun h => ?_, fun h => by rw [h]⟩,
    rfl, rfl, rfl, rfl⟩
  · exact congrArg NormalizedWeather.timestamp h
  · exact congrArg NormalizedWeather.timestamp h

/-- C3 counterexample: the same raw payloads normalized at clock readings 0 and
1 give different `ObservationRecord`s (the timestamps differ), refuting "pure
function with no hidden state" for the Weatherbit and Open-Meteo normalizers. -/
theorem normalize_twice_differs_counterexample :
    normalizeWeatherbitData wbPayloadEx 0 ≠ normalizeWeatherbitData wbPayloadEx 1 ∧
    normalizeOpenMeteoData omCurrentEx 0 ≠ normalizeOpenMeteoData omCurrentEx 1 := by
  constructor <;>
    · intro h
      have ht := congrArg NormalizedWeather.timestamp h
      norm_num [normalizeWeatherbitData, normalizeOpenMeteoData] at ht

/-! ### C4 — defaulting of unreported fields -/

/-- C4 (amended): fields a provider does not report are normalized to 0 —
OpenWeatherMap's `uvIndex` and `precipitationChance`, Weatherbit's
`precipitationChance`, Open-Meteo's `uvIndex` — except Open-Meteo's unreported
`visibility`, which is hard-coded to the default 10 (km), not 0. -/
theorem unreported_fields_default
    (p : OwmCurrent) (wb : WbCurrent) (om : OmCurrent) (now : ℚ) :
    (normalizeOpenWeatherMapData p).uvIndex = 0 ∧
    (normalizeOpenWeatherMapData p).precipitationChance = 0 ∧
    (normalizeWeatherbitData wb now).precipitationChance = 0 ∧
    (normalizeOpenMeteoData om now).uvIndex = 0 ∧
    (normalizeOpenMeteoData om now).visibility = 10 :=
  ⟨rfl, rfl, rfl, rfl, rfl⟩

/-- C4 counterexample: Open-Meteo's payload does not report visibility, yet the
normalized record's visibility is 10, not the claimed 0. -/
theorem om_visibility_defaults_to_ten_counterexample :
    (normalizeOpenMeteoData omCurrentEx 0).visibility = 10 ∧
    (normalizeOpenMeteoData omCurrentEx 0).visibility ≠ 0 :=
  ⟨rfl, by norm_num [normalizeOpenMeteoData]⟩

/-! ### C5 — all three weather fetches fail -/

/-- C5 (amended): when all three weather fetches are rejected the consensus
reading is absent (`null`, not a zero-valued object) and independently
fulfilled air-quality and alert results are still stored; however no
`NoProvidersAvailable` or user-visible "data unavailable" signal is raised —
`Promise.allSettled` never rejects, processing does not throw, and the only
user-visible error site (the `catch` branch of `loadWeatherData`) is not
reached, so the cycle completes silently. -/
theorem all_weather_failed_silent_cycle
    (now : ℚ) (aq : Option AirQualityResult) (al : Option AlertsResult)
    (st : WeatherData) :
    (loadWeatherCycle now ⟨none, none, none, aq, al⟩ st).1.current = none ∧
    (∀ a, aq = some a →
      (loadWeatherCycle now ⟨none, none, none, aq, al⟩ st).1.airQuality = some a) ∧
    (∀ ar, al = some ar →
      (loadWeatherCycle now ⟨none, none, none, aq, al⟩ st).1.alerts = ar.alerts) ∧
    (loadWeatherCycle now ⟨none, none, none, aq, al⟩ st).2 = none := by
  refine ⟨?_, ?_, ?_, rfl⟩
  · cases aq <;> cases al <;> rfl
  · rintro a rfl; cases al <;> rfl
  · rintro ar rfl; cases aq <;> rfl

/-- Witness for C5: the amended theorem applied to a cycle with all three
weather fetches rejected and fulfilled air-quality and alert fetches. -/
theorem all_weather_failed_silent_cycle_witness :
    (loadWeatherCycle 0 ⟨none, none, none, some (AirQualityResult.owm 3),
        some ⟨"demo", []⟩⟩ initialWeatherData).1.current = none ∧
    (loadWeatherCycle 0 ⟨none, none, none, some (AirQualityResult.owm 3),
        some ⟨"demo", []⟩⟩ initialWeatherData).1.airQuality =
      some (AirQualityResult.owm 3) ∧
    (loadWeatherCycle 0 ⟨none, none, none, some (AirQualityResult.owm 3),
        some ⟨"demo", []⟩⟩ initialWeatherData).1.alerts = [] ∧
    (loadWeatherCycle 0 ⟨none, none, none, some (AirQualityResult.owm 3),
        some ⟨"demo", []⟩⟩ initialWeatherData).2 = none := by
  have h := all_weather_failed_silent_cycle 0 (some (AirQualityResult.owm 3))
    (some ⟨"demo", []⟩) initialWeatherData
  exact ⟨h.1, h.2.1 _ rfl, h.2.2.1 _ rfl, h.2.2.2⟩

/-- C5 counterexample: in a concrete all-weather-failed cycle with fulfilled
air quality and alerts, the consensus is absent and air quality/alerts are
populated, but the user-visible error signal of the cycle is `none` — no
`NoProvidersAvailable` condition is surfaced, contrary to the claim. -/
theorem no_providers_signal_counterexample :
    (loadWeatherCycle 0 ⟨none, none, none, some (AirQualityResult.openMeteo 42),
        some ⟨"noaa", []⟩⟩ initialWeatherData).1.current = none ∧
    (loadWeatherCycle 0 ⟨none, none, none, some (AirQualityResult.openMeteo 42),
        some ⟨"noaa", []⟩⟩ initialWeatherData).1.airQuality =
      some (AirQualityResult.openMeteo 42) ∧
    (loadWeatherCycle 0 ⟨none, none, none, some (AirQualityResult.openMeteo 42),
        some ⟨"noaa", []⟩⟩ initialWeatherData).2 = none :=
  ⟨rfl, rfl, rfl⟩

/-! ### C6 — air-quality advisory threshold -/

/-- C6 (code bug): `updateHealthTips` compares the raw OpenWeatherMap AQI —
which is on the provider's 1–5 scale, as the code itself documents
("OpenWeatherMap uses 1-5 scale") and as `CONFIG.AQI_LEVELS[aqi - 1]` assumes —
directly against 100 without mapping it to the 0–500 scale.  At the worst
possible OpenWeatherMap air quality (5, which maps above 100 on the US scale)
no air-quality tip is appended; with the Open-Meteo source, whose `us_aqi` is
already on the 0–500 scale, the rule fires as specified. -/
theorem air_quality_tip_unreachable_for_owm_scale :
    updateHealthTips (Sum.inl (normalizeOpenWeatherMapData owmPayloadEx))
        (some (AirQualityResult.owm 5)) = [favorableTipText] ∧
    100 < mapOwmScaleToUsAqi 5 ∧
    updateHealthTips (Sum.inl (normalizeOpenWeatherMapData owmPayloadEx))
        (some (AirQualityResult.openMeteo 300)) = [poorAirQualityTipText] := by
  refine ⟨?_, by norm_num [mapOwmScaleToUsAqi], ?_⟩ <;>
    norm_num [updateHealthTips, currentUvIndex, currentTemperature,
      currentHumidity, currentWindSpeed, healthTipsAqi,
      normalizeOpenWeatherMapData, owmPayloadEx]

/-! ### C7 — forecast priority and truncation -/

/-- `processOpenMeteoDaily` is the 7-prefix of the full derived daily series. -/
lemma processOpenMeteoDaily_eq_take (data : OmData) :
    processOpenMeteoDaily data = (omDailySlots data.daily).take 7 := by
  unfold processOpenMeteoDaily omDailySlots
  rw [← List.map_take, List.take_range]

/-- `processOpenMeteoHourly` is the 24-prefix of the full derived hourly
series. -/
lemma processOpenMeteoHourly_eq_take (data : OmData) :
    processOpenMeteoHourly data = (omHourlySlots data.hourly).take 24 := by
  unfold processOpenMeteoHourly omHourlySlots
  rw [← List.map_take, List.take_range]

/-- C7: the merged daily series is Weatherbit's native series when present,
otherwise derived from Open-Meteo's time-series arrays, otherwise empty; in
each non-empty case the output is the prefix of the source series of length
`min 7 (source length)` — and analogously for hourly with 24. -/
theorem forecast_priority_and_truncation (results : FetchResults) :
    (∀ dl, results.weatherbit.bind WeatherbitPayload.daily = some dl →
      (processEnsembleForecasts results).2 = (dl.take 7).map Sum.inl ∧
      (processEnsembleForecasts results).2.length = min 7 dl.length) ∧
    (∀ om, results.weatherbit.bind WeatherbitPayload.daily = none →
      results.openMeteo = some om →
      (processEnsembleForecasts results).2 =
        ((omDailySlots om.data.daily).take 7).map Sum.inr ∧
      (processEnsembleForecasts results).2.length =
        min 7 om.data.daily.time.length) ∧
    (results.weatherbit.bind WeatherbitPayload.daily = none →
      results.openMeteo = none → (processEnsembleForecasts results).2 = []) ∧
    (∀ hl, results.weatherbit.bind WeatherbitPayload.hourly = some hl →
      (processEnsembleForecasts results).1 = (hl.take 24).map Sum.inl ∧
      (processEnsembleForecasts results).1.length = min 24 hl.length) ∧
    (∀ om, results.weatherbit.bind WeatherbitPayload.hourly = none →
      results.openMeteo = some om →
      (processEnsembleForecasts results).1 =
        ((omHourlySlots om.data.hourly).take 24).map Sum.inr ∧
      (processEnsembleForecasts results).1.length =
        min 24 om.data.hourly.time.length) ∧
    (results.weatherbit.bind WeatherbitPayload.hourly = none →
      results.openMeteo = none → (processEnsembleForecasts results).1 = []) := by
  refine ⟨?_, ?_, ?_, ?_, ?_, ?_⟩
  · intro dl hd
    constructor
    · simp [processEnsembleForecasts, hd]
    · simp [processEnsembleForecasts, hd]
  · intro om hd hm
    constructor
    · simp [processEnsembleForecasts, hd, hm, processOpenMeteoDaily_eq_take]
    · simp [processEnsembleForecasts, hd, hm, processOpenMeteoDaily_eq_take,
        omDailySlots]
  · intro hd hm
    simp [processEnsembleForecasts, hd, hm]
  · intro hl hh
    constructor
    · simp [processEnsembleForecasts, hh]
    · simp [processEnsembleForecasts, hh]
  · intro om hh hm
    constructor
    · simp [processEnsembleForecasts, hh, hm, processOpenMeteoHourly_eq_take]
    · simp [processEnsembleForecasts, hh, hm, processOpenMeteoHourly_eq_take,
        omHourlySlots]
  · intro hh hm
    simp [processEnsembleForecasts, hh, hm]

/-- Witness for C7: a 10-entry Weatherbit daily source yields exactly 7 merged
entries, a 3-entry source exactly 3. -/
theorem forecast_priority_and_truncation_witness :
    (processEnsembleForecasts
      ⟨none, some ⟨wbPayloadEx, some (List.replicate 10 ⟨some "2023-09-21", 20⟩),
        none⟩, none, none, none⟩).2.length = 7 ∧
    (processEnsembleForecasts
      ⟨none, some ⟨wbPayloadEx, some (List.replicate 3 ⟨some "2023-09-21", 20⟩),
        none⟩, none, none, none⟩).2.length = 3 := by
  have h10 := ((forecast_priority_and_truncation
    ⟨none, some ⟨wbPayloadEx, some (List.replicate 10 ⟨some "2023-09-21", 20⟩),
      none⟩, none, none, none⟩).1 _ rfl).2
  have h3 := ((forecast_priority_and_truncation
    ⟨none, some ⟨wbPayloadEx, some (List.replicate 3 ⟨some "2023-09-21", 20⟩),
      none⟩, none, none, none⟩).1 _ rfl).2
  constructor
  · rw [h10]; simp
  · rw [h3]; simp

/-! ### C8 / C10 — alert severity classification -/

/-- Membership in the severe filter, unfolded: a nested `properties` object
must exist and carry a severity lowercasing to one of the three severe
classes. -/
lemma isSevereAlert_eq_true_iff (a : Alert) :
    isSevereAlert a = true ↔
      ∃ p s, a.properties = some p ∧ p.severity = some s ∧
        (jsToLowerCase s = "severe" ∨ jsToLowerCase s = "extreme" ∨
          jsToLowerCase s = "critical") := by
  unfold isSevereAlert
  rcases hp : a.properties with _ | p
  · simp
  · rcases hs : p.severity with _ | s
    · simp [hs]
    · simp [hs, Bool.or_eq_true, decide_eq_true_eq, or_assoc]

/-- C8: every alert of the input list appears in the full informational card
view, and it belongs to the severe-only banner subset exactly when its nested
severity string lowercases to "severe", "extreme" or "critical" — so the
comparison is case-insensitive, "minor" is excluded, and unrecognized severity
strings are excluded from the severe subset while staying in the full view. -/
theorem alert_severity_filter_views (alerts : List Alert) (a : Alert)
    (h : a ∈ alerts) :
    renderAlertCard a ∈ alertsCardItems alerts ∧
    (a ∈ severeAlerts alerts ↔
      ∃ p s, a.properties = some p ∧ p.severity = some s ∧
        (jsToLowerCase s = "severe" ∨ jsToLowerCase s = "extreme" ∨
          jsToLowerCase s = "critical")) := by
  constructor
  · exact List.mem_map_of_mem _ h
  · rw [severeAlerts, List.mem_filter]
    simp [h, isSevereAlert_eq_true_iff]

/-- An alert whose nested severity is "SEVERE". -/
def severeAlertEx : Alert where
  properties := some
    { headline := some "Storm warning", event := none, title := none,
      description := some "Large hail possible.", instruction := none,
      summary := none, severity := some "SEVERE" }
  top :=
    { headline := none, event := none, title := none, description := none,
      instruction := none, summary := none, severity := none }

/-- An alert whose nested severity is "minor". -/
def minorAlertEx : Alert where
  properties := some
    { headline := some "Frost advisory", event := none, title := none,
      description := some "Patchy frost.", instruction := none,
      summary := none, severity := some "minor" }
  top :=
    { headline := none, event := none, title := none, description := none,
      instruction := none, summary := none, severity := none }

/-- An alert with an unrecognized severity string. -/
def unknownSeverityAlertEx : Alert where
  properties := some
    { headline := some "Advisory", event := none, title := none,
      description := some "Unspecified.", instruction := none,
      summary := none, severity := some "BananaLevel" }
  top :=
    { headline := none, event := none, title := none, description := none,
      instruction := none, summary := none, severity := none }

/-- Witness for C8: in the three-alert list, the "SEVERE" alert is in both
views (via the theorem), while the "minor" and unrecognized-severity alerts are
in the full view but not in the severe subset. -/
theorem alert_severity_filter_views_witness :
    renderAlertCard severeAlertEx ∈
      alertsCardItems [severeAlertEx, minorAlertEx, unknownSeverityAlertEx] ∧
    severeAlertEx ∈ severeAlerts [severeAlertEx, minorAlertEx, unknownSeverityAlertEx] ∧
    renderAlertCard minorAlertEx ∈
      alertsCardItems [severeAlertEx, minorAlertEx, unknownSeverityAlertEx] ∧
    minorAlertEx ∉ severeAlerts [severeAlertEx, minorAlertEx, unknownSeverityAlertEx] ∧
    unknownSeverityAlertEx ∉
      severeAlerts [severeAlertEx, minorAlertEx, unknownSeverityAlertEx] := by
  have hs := alert_severity_filter_views
    [severeAlertEx, minorAlertEx, unknownSeverityAlertEx] severeAlertEx (by simp)
  have hm := alert_severity_filter_views
    [severeAlertEx, minorAlertEx, unknownSeverityAlertEx] minorAlertEx (by simp)
  exact ⟨hs.1, hs.2.mpr ⟨_, "SEVERE", rfl, rfl, Or.inl (by decide)⟩, hm.1,
    by decide, by decide⟩

/-- C10: an alert whose severity lives at the top level of the alert object
(no nested `properties` field) is rendered in the full card view — whose
fallback `alert.properties || alert` reads the top-level fields — but is never
in the severe-only banner subset, whatever its top-level severity says, because
the banner filter reads only `alert.properties?.severity`. -/
theorem top_level_severity_excluded_from_banner (alerts : List Alert) (a : Alert)
    (h : a ∈ alerts) (hp : a.properties = none) :
    renderAlertCard a ∈ alertsCardItems alerts ∧
    alertDisplayProps a = a.top ∧
    a ∉ severeAlerts alerts := by
  refine ⟨List.mem_map_of_mem _ h, by rw [alertDisplayProps, hp]; rfl, ?_⟩
  intro hmem
  obtain ⟨p, s, hps, -, -⟩ :=
    (isSevereAlert_eq_true_iff a).mp (List.mem_filter.mp hmem).2
  rw [hp] at hps
  cases hps

/-- An alert carrying severity "severe" at the top level only. -/
def topLevelSevereAlertEx : Alert where
  properties := none
  top :=
    { headline := some "Flood warning", event := none, title := none,
      description := some "River flooding expected.", instruction := none,
      summary := none, severity := some "severe" }

/-- Witness for C10: the top-level-"severe" alert is rendered in the full view
from its top-level fields yet excluded from the banner subset. -/
theorem top_level_severity_excluded_from_banner_witness :
    renderAlertCard topLevelSevereAlertEx ∈ alertsCardItems [topLevelSevereAlertEx] ∧
    alertDisplayProps topLevelSevereAlertEx = topLevelSevereAlertEx.top ∧
    topLevelSevereAlertEx ∉ severeAlerts [topLevelSevereAlertEx] ∧
    topLevelSevereAlertEx.top.severity = some "severe" := by
  have h := top_level_severity_excluded_from_banner [topLevelSevereAlertEx]
    topLevelSevereAlertEx (by simp) rfl
  exact ⟨h.1, h.2.1, h.2.2, rfl⟩

/-! ### C9 — saveObservation divergence -/

/-- C9: when `useLocalStorage` was never set (the IndexedDB-available
initialization path), `saveObservation` calls `saveToIndexedDB`, which calls
`saveObservation` back with the same argument and unchanged state: for every
fuel bound the mutual recursion fails to complete, i.e. saving an observation
never terminates. -/
theorem saveObservation_never_terminates
    (fuel : ℕ) (st : AppState) (observation : Observation)
    (h : st.useLocalStorage = false) :
    saveObservation fuel st observation = none ∧
    saveToIndexedDB fuel st observation = none := by
  induction fuel with
  | zero => exact ⟨rfl, rfl⟩
  | succ n ih =>
      constructor
      · rw [saveObservation]
        simp only [h, Bool.not_false, if_pos]
        exact ih.2
      · rw [saveToIndexedDB]
        exact ih.1

/-- Witness for C9: a concrete state with the flag unset and fuel 1000. -/
theorem saveObservation_never_terminates_witness :
    (⟨false, []⟩ : AppState).useLocalStorage = false ∧
    saveObservation 1000 ⟨false, []⟩ ⟨1, "hail"⟩ = none :=
  ⟨rfl, (saveObservation_never_terminates 1000 ⟨false, []⟩ ⟨1, "hail"⟩ rfl).1⟩
